import Mathlib

/-!
Verification of `src/select_export_cameras.py` (metashape-gui-tools).

Shallow embedding: the host object graph (`app.document.chunk.cameras`) is an
optional document holding an optional chunk holding an ordered camera list; the
widget state is the `QListWidget` row list plus the `self.items` dict mapping a
camera label to its row (modelled as an index into the row list, since the dict
values alias the list rows). Each operation of `CameraSelector` becomes a
function from state to state; Python exceptions (`AttributeError` on a missing
document/chunk, `KeyError` on a missing dict key) become an `Option Err`
component of the result, paired with the state as already mutated when the
exception is raised.
-/

/-- A Metashape camera as the plugin sees it: display label, source photo path
(`camera.photo.path`) and the host-owned selection flag (`camera.selected`). -/
structure Camera where
  label : String
  photoPath : String
  selected : Bool
deriving Repr, DecidableEq

/-- One `QListWidgetItem` row: its text, its check state and its native
multi-select state. The code only ever assigns `Qt.Unchecked` / `Qt.Checked`
(never the tri-state third value), so the check state is a `Bool`. -/
structure Item where
  label : String
  checked : Bool
  uiSelected : Bool
deriving Repr, DecidableEq

/-- The host graph reachable from `self.app`: `document` may be `None`, and
`document.chunk` may be `None`; otherwise `chunk.cameras` is an ordered list. -/
abbrev Doc := Option (Option (List Camera))

/-- Python exceptions the widget code can raise. -/
inductive Err where
  | attrError : Err
  | keyError : String → Err
deriving Repr, DecidableEq

/-- Evaluating `self.app.document.chunk.cameras`: attribute access on `None`
raises `AttributeError`. -/
def getCameras : Doc → Except Err (List Camera)
  | none => .error .attrError
  | some none => .error .attrError
  | some (some cams) => .ok cams

/-- Python-dict insertion for `self.items[label] = item`: overwriting a present
key keeps its position, a new key is appended. -/
def dictInsert : List (String × Nat) → String → Nat → List (String × Nat)
  | [], k, v => [(k, v)]
  | (k0, v0) :: rest, k, v =>
      if k0 = k then (k, v) :: rest else (k0, v0) :: dictInsert rest k v

/-- Python-dict lookup, `None`-free: `some` iff the key is present. -/
def dictGet : List (String × Nat) → String → Option Nat
  | [], _ => none
  | (k0, v0) :: rest, k => if k0 = k then some v0 else dictGet rest k

/-- `CameraSelector` UI state: the `QListWidget` rows in order, and the
`self.items` dict mapping a label to the index of its row. -/
structure SelectorState where
  list : List Item
  items : List (String × Nat)
deriving Repr, DecidableEq

/-- Whole-world state: host graph plus widget state. -/
structure WState where
  doc : Doc
  ui : SelectorState
deriving Repr, DecidableEq

/-- Update the row at an index (no-op when out of range, mirroring that dict
values always reference live rows). -/
def modifyItem (l : List Item) (idx : Nat) (f : Item → Item) : List Item :=
  match l, idx with
  | [], _ => []
  | x :: xs, 0 => f x :: xs
  | x :: xs, n + 1 => x :: modifyItem xs n f

/-- The default row used to totalise out-of-range reads. -/
def defaultItem : Item := { label := "", checked := false, uiSelected := false }

/-- Read the row at an index. -/
def itemAt (ui : SelectorState) (idx : Nat) : Item :=
  ui.list.getD idx defaultItem

/-- `item.setCheckState(...)` on the row at an index. -/
def setChecked (ui : SelectorState) (idx : Nat) (b : Bool) : SelectorState :=
  { ui with list := modifyItem ui.list idx (fun it => { it with checked := b }) }

/-- `item.setSelected(...)` on the row at an index. -/
def setUiSelected (ui : SelectorState) (idx : Nat) (b : Bool) : SelectorState :=
  { ui with list := modifyItem ui.list idx (fun it => { it with uiSelected := b }) }

/-- Labels of `self.list.selectedItems()`, in row order. -/
def natSelectedLabels (ui : SelectorState) : List String :=
  (ui.list.filter (·.uiSelected)).map (·.label)

/-- The check state of the row the dict maps a label to (`false` when the label
is absent; only used under hypotheses that make the label present). -/
def entryChecked (ui : SelectorState) (l : String) : Bool :=
  match dictGet ui.items l with
  | some idx => (itemAt ui idx).checked
  | none => false

/-- `CameraSelector.update_cameras`: `self.list.clear()`, `self.items.clear()`,
then one appended row per camera of `self.app.document.chunk.cameras`, text set
to the camera label, check state `Qt.Unchecked`, and the row recorded in the
dict. The clears happen before the attribute chain is evaluated, so a missing
document/chunk leaves the UI cleared and raises. -/
def update_cameras (w : WState) : WState × Option Err :=
  let cleared : SelectorState := { list := [], items := [] }
  match getCameras w.doc with
  | .error e => ({ w with ui := cleared }, some e)
  | .ok cams =>
      let ui := cams.foldl
        (fun s camera =>
          { list := s.list ++ [{ label := camera.label, checked := false, uiSelected := false }],
            items := dictInsert s.items camera.label s.list.length })
        cleared
      ({ w with ui := ui }, none)

/-- Loop body of `CameraSelector.check_selected`: for each camera in order, if
`camera.selected`, look up `self.items[camera.label]` (raising `KeyError` when
absent, with the rows already processed left mutated) and check it. -/
def checkSelectedLoop (cams : List Camera) (ui : SelectorState) :
    SelectorState × Option Err :=
  match cams with
  | [] => (ui, none)
  | camera :: rest =>
      if camera.selected then
        match dictGet ui.items camera.label with
        | none => (ui, some (.keyError camera.label))
        | some idx => checkSelectedLoop rest (setChecked ui idx true)
      else checkSelectedLoop rest ui

/-- `CameraSelector.check_selected` ("Add Selected"). -/
def check_selected (w : WState) : WState × Option Err :=
  match getCameras w.doc with
  | .error e => (w, some e)
  | .ok cams =>
      let r := checkSelectedLoop cams w.ui
      ({ w with ui := r.1 }, r.2)

/-- `CameraSelector.clear_selected` ("Clear"): for each value of `self.items`
in dict order, `setCheckState(Qt.Unchecked)`. Touches no host state. -/
def clear_selected (w : WState) : WState :=
  { w with ui :=
      w.ui.items.foldl (fun s kv => setChecked s kv.2 false) w.ui }

/-- Loop body of `CameraSelector.select_checked`: for each camera in order,
look up its row (raising `KeyError` when absent, with earlier cameras and rows
left mutated); if the row's check state is `Qt.Unchecked`, set
`camera.selected = False` and deselect the row, otherwise set both true. -/
def selectCheckedLoop (cams : List Camera) (ui : SelectorState) :
    (List Camera × SelectorState) × Option Err :=
  match cams with
  | [] => (([], ui), none)
  | camera :: rest =>
      match dictGet ui.items camera.label with
      | none => ((camera :: rest, ui), some (.keyError camera.label))
      | some idx =>
          let b := (itemAt ui idx).checked
          let r := selectCheckedLoop rest (setUiSelected ui idx b)
          (({ camera with selected := b } :: r.1.1, r.1.2), r.2)

/-- `CameraSelector.select_checked` ("Select Checked"). -/
def select_checked (w : WState) : WState × Option Err :=
  match getCameras w.doc with
  | .error e => (w, some e)
  | .ok cams =>
      let r := selectCheckedLoop cams w.ui
      ({ doc := some (some r.1.1), ui := r.1.2 }, r.2)

/-- `CameraSelector.update_items` (the `itemSelectionChanged` slot): read the
selected rows' texts, then set each camera's `selected` flag to whether its
label occurs among them. Writes nothing to the widget. -/
def update_items (w : WState) : WState × Option Err :=
  let selected_items := natSelectedLabels w.ui
  match getCameras w.doc with
  | .error e => (w, some e)
  | .ok cams =>
      ({ w with doc := some (some (cams.map
          (fun camera => { camera with selected := selected_items.contains camera.label }))) },
       none)

/-- `CameraSelector.export_cameras`: read the natively selected rows' labels,
resolve each through the `get_camera` collaborator (`lookup`), prompt for a
destination (`export_path`; the empty string is the cancelled prompt, since the
code tests `if not export_path`), and on a confirmed path open the file in mode
"w" and write one `label,photo_path` newline-terminated line per resolved
camera, skipping `None` results. `some (p, content)` means the file at `p` now
holds exactly `content` (mode "w" truncates); `none` means no file is touched. -/
def exportWriteLine (acc : String) (camera : Option Camera) : String :=
  match camera with
  | none => acc
  | some camera => acc ++ camera.label ++ "," ++ camera.photoPath ++ "\n"

/-- `export_cameras` proper; `exportWriteLine` above is the body of its write
loop (`if not camera: continue`, otherwise write the camera's label and photo
path joined by a comma, terminated by a newline). -/
def export_cameras (lookup : String → Option Camera) (ui : SelectorState)
    (export_path : String) : Option (String × String) :=
  let camera_labels := natSelectedLabels ui
  let cameras := camera_labels.map lookup
  if export_path = "" then none
  else some (export_path, cameras.foldl exportWriteLine "")

/-- `CameraMonitor` mutable state: the previously observed label list,
initially `None`. -/
structure MonitorState where
  camera_labels : Option (List String)
deriving Repr, DecidableEq

/-- One iteration of the polling loop in `CameraMonitor.monitor_cameras`
(after the sleep): skip when document or chunk is missing; otherwise read the
ordered labels; `if not self.camera_labels` (true for `None` and for the empty
list) record them without emitting; else emit `camera_signal` exactly when the
labels differ from the recorded ones, recording the new value. Returns the new
monitor state and whether the signal was emitted. -/
def monitor_cameras_step (doc : Doc) (m : MonitorState) : MonitorState × Bool :=
  match doc with
  | none => (m, false)
  | some none => (m, false)
  | some (some cams) =>
      let camera_labels := cams.map (·.label)
      match m.camera_labels with
      | none => ({ camera_labels := some camera_labels }, false)
      | some [] => ({ camera_labels := some camera_labels }, false)
      | some prev =>
          if camera_labels = prev then (m, false)
          else ({ camera_labels := some camera_labels }, true)

/-- The destination file content as the spec words it (§4.1, §6, §8): one line
per natively-selected label that the lookup collaborator resolves, in selection
order, each line the resolved camera's label and photo path joined by a literal
comma and terminated by a newline, no header, no quoting, unresolved labels
contributing nothing. Stated from the spec, to be compared with
`export_cameras`. -/
def exportLinesSpec (lookup : String → Option Camera) : List String → String
  | [] => ""
  | l :: ls =>
      (match lookup l with
       | some camera => camera.label ++ "," ++ camera.photoPath ++ "\n"
       | none => "") ++ exportLinesSpec lookup ls

/-- Two UI states that agree on the dict and on every row's label and native
selection state, differing at most in check states. -/
def eqExceptChecked (u v : SelectorState) : Prop :=
  u.items = v.items ∧
  u.list.map (fun it => (it.label, it.uiSelected))
    = v.list.map (fun it => (it.label, it.uiSelected))

/-! ### Lemmas about row updates and the dict -/

theorem modifyItem_length (l : List Item) (idx : Nat) (f : Item → Item) :
    (modifyItem l idx f).length = l.length := by
  induction l generalizing idx with
  | nil => rfl
  | cons x xs ih =>
    cases idx with
    | zero => rfl
    | succ n => simpa [modifyItem] using ih n

theorem getD_modifyItem (l : List Item) (idx j : Nat) (f : Item → Item) (d : Item) :
    (modifyItem l idx f).getD j d =
      if j = idx ∧ idx < l.length then f (l.getD j d) else l.getD j d := by
  induction l generalizing idx j with
  | nil => simp [modifyItem]
  | cons x xs ih =>
    cases idx with
    | zero =>
      cases j with
      | zero => simp [modifyItem]
      | succ m => simp [modifyItem]
    | succ n =>
      cases j with
      | zero => simp [modifyItem]
      | succ m =>
        have hL : (modifyItem (x :: xs) (n + 1) f).getD (m + 1) d
            = (modifyItem xs n f).getD m d := by
          simp [modifyItem]
        simp only [List.length_cons]
        rw [hL, List.getD_cons_succ, ih n m]
        by_cases h1 : m = n ∧ n < xs.length
        · rw [if_pos h1, if_pos (show m + 1 = n + 1 ∧ n + 1 < xs.length + 1 by omega)]
        · rw [if_neg h1, if_neg (show ¬(m + 1 = n + 1 ∧ n + 1 < xs.length + 1) by omega)]

theorem itemAt_setChecked (ui : SelectorState) (idx : Nat) (b : Bool) (j : Nat) :
    itemAt (setChecked ui idx b) j =
      if j = idx ∧ idx < ui.list.length then { itemAt ui j with checked := b }
      else itemAt ui j := by
  show (modifyItem ui.list idx (fun it => { it with checked := b })).getD j defaultItem = _
  rw [getD_modifyItem]
  rfl

theorem itemAt_setUiSelected (ui : SelectorState) (idx : Nat) (b : Bool) (j : Nat) :
    itemAt (setUiSelected ui idx b) j =
      if j = idx ∧ idx < ui.list.length then { itemAt ui j with uiSelected := b }
      else itemAt ui j := by
  show (modifyItem ui.list idx (fun it => { it with uiSelected := b })).getD j defaultItem = _
  rw [getD_modifyItem]
  rfl

theorem items_setChecked (ui : SelectorState) (idx : Nat) (b : Bool) :
    (setChecked ui idx b).items = ui.items := rfl

theorem items_setUiSelected (ui : SelectorState) (idx : Nat) (b : Bool) :
    (setUiSelected ui idx b).items = ui.items := rfl

theorem length_setChecked (ui : SelectorState) (idx : Nat) (b : Bool) :
    (setChecked ui idx b).list.length = ui.list.length :=
  modifyItem_length ui.list idx _

theorem length_setUiSelected (ui : SelectorState) (idx : Nat) (b : Bool) :
    (setUiSelected ui idx b).list.length = ui.list.length :=
  modifyItem_length ui.list idx _

theorem checked_itemAt_setUiSelected (ui : SelectorState) (idx : Nat) (b : Bool) (j : Nat) :
    (itemAt (setUiSelected ui idx b) j).checked = (itemAt ui j).checked := by
  rw [itemAt_setUiSelected]
  split <;> rfl

theorem entryChecked_setUiSelected (ui : SelectorState) (idx : Nat) (b : Bool) (l : String) :
    entryChecked (setUiSelected ui idx b) l = entryChecked ui l := by
  unfold entryChecked
  have hitems : (setUiSelected ui idx b).items = ui.items := rfl
  rw [hitems]
  cases dictGet ui.items l with
  | none => rfl
  | some i => simp [checked_itemAt_setUiSelected]

theorem dictGet_mem (kvs : List (String × Nat)) (k : String) (v : Nat)
    (h : dictGet kvs k = some v) : (k, v) ∈ kvs := by
  induction kvs with
  | nil => simp [dictGet] at h
  | cons kv rest ih =>
    obtain ⟨k0, v0⟩ := kv
    rw [dictGet] at h
    by_cases hk : k0 = k
    · rw [if_pos hk] at h
      cases h
      subst hk
      exact List.mem_cons_self _ _
    · rw [if_neg hk] at h
      exact List.mem_cons_of_mem _ (ih h)

theorem itemAt_ge_length (ui : SelectorState) (j : Nat) (h : ui.list.length ≤ j) :
    itemAt ui j = defaultItem :=
  List.getD_eq_default _ _ h

/-! ### Refresh (`update_cameras`) -/

theorem updateCamerasFold_list (cams : List Camera) (s : SelectorState) :
    (cams.foldl
        (fun s camera =>
          { list := s.list ++ [{ label := camera.label, checked := false, uiSelected := false }],
            items := dictInsert s.items camera.label s.list.length })
        s).list =
      s.list ++ cams.map (fun c => { label := c.label, checked := false, uiSelected := false }) := by
  induction cams generalizing s with
  | nil => simp
  | cons c rest ih => simp [ih]

/-- C7: with an open document and chunk holding the camera list `cams`, Refresh
reports no error, leaves the host untouched, and rebuilds the UI list as exactly
one row per camera, in chunk order, labelled by the camera labels and all
unchecked; with an empty chunk both the list and the entry dict end up empty. -/
theorem update_cameras_populates (w : WState) (cams : List Camera)
    (hdoc : w.doc = some (some cams)) :
    (update_cameras w).2 = none ∧
    (update_cameras w).1.doc = w.doc ∧
    (update_cameras w).1.ui.list =
      cams.map (fun c => { label := c.label, checked := false, uiSelected := false }) ∧
    (cams = [] → (update_cameras w).1.ui = { list := [], items := [] }) := by
  have h1 : getCameras w.doc = .ok cams := by rw [hdoc]; rfl
  refine ⟨?_, ?_, ?_, ?_⟩
  · simp [update_cameras, h1]
  · simp [update_cameras, h1]
  · simp only [update_cameras, h1]
    exact (updateCamerasFold_list cams _).trans (by simp)
  · rintro rfl
    simp [update_cameras, h1]

theorem update_cameras_populates_witness :
    (update_cameras { doc := some (some [{ label := "A", photoPath := "/p/a.jpg", selected := true },
                                         { label := "B", photoPath := "/p/b.jpg", selected := false }]),
                      ui := { list := [{ label := "Z", checked := true, uiSelected := true }],
                              items := [("Z", 0)] } }).1.ui.list =
      [{ label := "A", checked := false, uiSelected := false },
       { label := "B", checked := false, uiSelected := false }] := by
  have h := update_cameras_populates
    { doc := some (some [{ label := "A", photoPath := "/p/a.jpg", selected := true },
                         { label := "B", photoPath := "/p/b.jpg", selected := false }]),
      ui := { list := [{ label := "Z", checked := true, uiSelected := true }],
              items := [("Z", 0)] } }
    [{ label := "A", photoPath := "/p/a.jpg", selected := true },
     { label := "B", photoPath := "/p/b.jpg", selected := false }] rfl
  exact h.2.2.1.trans rfl

/-- C1 counterexample: in a state whose document is `None`, Refresh does not
complete silently — it raises `AttributeError` (the claim asserts the error
component would be `none`). -/
theorem update_cameras_missing_doc_raises :
    (update_cameras
        { doc := none,
          ui := { list := [{ label := "Z", checked := true, uiSelected := true }],
                  items := [("Z", 0)] } }).2 = some Err.attrError := rfl

/-- C1 amended: with no document or no chunk open, Refresh first clears the UI
list and entry dict and then raises `AttributeError`, which propagates to the
caller; it is not a silent no-op. -/
theorem update_cameras_missing_doc_spec (w : WState)
    (h : w.doc = none ∨ w.doc = some none) :
    update_cameras w = ({ w with ui := { list := [], items := [] } }, some Err.attrError) := by
  rcases h with h | h <;> simp [update_cameras, getCameras, h]

theorem update_cameras_missing_doc_spec_witness :
    update_cameras
        { doc := some none,
          ui := { list := [{ label := "Z", checked := true, uiSelected := true }],
                  items := [("Z", 0)] } }
      = ({ doc := some none, ui := { list := [], items := [] } }, some Err.attrError) :=
  update_cameras_missing_doc_spec _ (Or.inr rfl)

/-! ### Export (`export_cameras`) -/

theorem exportFold_content (lookup : String → Option Camera) (ls : List String) (acc : String) :
    (ls.map lookup).foldl exportWriteLine acc = acc ++ exportLinesSpec lookup ls := by
  induction ls generalizing acc with
  | nil => simp [exportLinesSpec]
  | cons l ls ih =>
    rw [List.map_cons, List.foldl_cons, ih]
    cases h : lookup l <;>
      simp [exportLinesSpec, exportWriteLine, h, String.append_assoc, String.empty_append]

/-- C3: with a confirmed (non-empty) destination path, Export overwrites the
file at that path with exactly the content the spec prescribes: one
`label,photo_path` newline-terminated line per natively-selected label that the
lookup collaborator resolves, in selection order, nothing for labels that fail
to resolve, no header. -/
theorem export_cameras_format (lookup : String → Option Camera) (ui : SelectorState)
    (p : String) (hp : p ≠ "") :
    export_cameras lookup ui p = some (p, exportLinesSpec lookup (natSelectedLabels ui)) := by
  simp only [export_cameras, if_neg hp]
  rw [exportFold_content]
  rw [String.empty_append]

theorem export_cameras_format_witness :
    export_cameras
        (fun l => if l = "A" then some { label := "A", photoPath := "/p/a.jpg", selected := false }
                  else none)
        { list := [{ label := "A", checked := false, uiSelected := true },
                   { label := "B", checked := false, uiSelected := true }],
          items := [("A", 0), ("B", 1)] }
        "/out.csv"
      = some ("/out.csv", "A,/p/a.jpg\n") ∧
    export_cameras
        (fun l => if l = "A" then some { label := "A", photoPath := "/p/a.jpg", selected := false }
                  else none)
        { list := [], items := [] }
        "/out.csv"
      = some ("/out.csv", "") := by
  constructor
  · rw [export_cameras_format _ _ _ (by decide)]
    rfl
  · rw [export_cameras_format _ _ _ (by decide)]
    rfl

/-- C9: a cancelled destination prompt (the file dialog returning the empty
string) makes Export return with no file created or modified and no error. -/
theorem export_cameras_cancelled (lookup : String → Option Camera) (ui : SelectorState) :
    export_cameras lookup ui "" = none := rfl

/-! ### Camera monitor (`monitor_cameras`) -/

/-- C2 counterexample: with the last observed label sequence being the empty
list and the chunk now holding camera "A", the ordered sequence differs from
the last observed one, yet the iteration emits no signal (it records the new
sequence silently), because `if not self.camera_labels` is also true for an
empty list. -/
theorem monitor_cameras_step_missed_change :
    (monitor_cameras_step
        (some (some [{ label := "A", photoPath := "/p/a.jpg", selected := false }]))
        { camera_labels := some [] })
      = ({ camera_labels := some ["A"] }, false) ∧
    (["A"] : List String) ≠ [] :=
  ⟨rfl, by decide⟩

/-- C2 amended: a poll iteration emits the refresh signal iff the last observed
sequence exists, is non-empty, and differs from the current ordered label
sequence; when the last observed sequence is absent (`None`) or empty, the
current sequence is recorded without a signal; a missing document or chunk
means no signal and no update of the observed sequence. -/
theorem monitor_cameras_step_spec (doc : Doc) (m : MonitorState) :
    ((monitor_cameras_step doc m).2 = true ↔
      ∃ cams prev, doc = some (some cams) ∧ m.camera_labels = some prev ∧
        prev ≠ [] ∧ cams.map (·.label) ≠ prev) ∧
    (∀ cams, doc = some (some cams) →
      m.camera_labels = none ∨ m.camera_labels = some [] →
      monitor_cameras_step doc m = ({ camera_labels := some (cams.map (·.label)) }, false)) ∧
    ((doc = none ∨ doc = some none) → monitor_cameras_step doc m = (m, false)) := by
  obtain ⟨ml⟩ := m
  refine ⟨?_, ?_, ?_⟩
  · rcases doc with _ | d
    · simp [monitor_cameras_step]
    rcases d with _ | cams
    · simp [monitor_cameras_step]
    rcases ml with _ | prev
    · simp [monitor_cameras_step]
    rcases prev with _ | ⟨p, ps⟩
    · simp [monitor_cameras_step]
    by_cases he : cams.map (·.label) = p :: ps
    · simp [monitor_cameras_step, he]
    · simp [monitor_cameras_step, he]
  · rintro cams rfl h
    rcases ml with _ | prev
    · rfl
    · have hp : prev = [] := by
        rcases h with h | h
        · exact absurd h (by simp)
        · simpa using h
      subst hp
      rfl
  · rintro (rfl | rfl) <;> rfl

theorem monitor_cameras_step_spec_witness :
    (monitor_cameras_step
        (some (some [{ label := "A", photoPath := "/p/a.jpg", selected := false }]))
        { camera_labels := some ["B"] }).2 = true ∧
    monitor_cameras_step none { camera_labels := some ["B"] }
      = ({ camera_labels := some ["B"] }, false) :=
  ⟨(monitor_cameras_step_spec
      (some (some [{ label := "A", photoPath := "/p/a.jpg", selected := false }]))
      { camera_labels := some ["B"] }).1.mpr
        ⟨[{ label := "A", photoPath := "/p/a.jpg", selected := false }], ["B"],
          rfl, rfl, by decide, by decide⟩,
   (monitor_cameras_step_spec none { camera_labels := some ["B"] }).2.2 (Or.inl rfl)⟩

/-! ### Selection-changed reaction (`update_items`) -/

theorem contains_eq_decide_mem (l : List String) (a : String) :
    l.contains a = decide (a ∈ l) := by
  cases hb : l.contains a
  · have hm : a ∉ l := fun hm => by
      have h2 := List.elem_iff.mpr hm
      rw [show List.elem a l = l.contains a from rfl, hb] at h2
      exact Bool.noConfusion h2
    simp [hm]
  · have hm : a ∈ l := List.elem_iff.mp (by rw [show List.elem a l = l.contains a from rfl, hb])
    simp [hm]

theorem selLabels_of_pairs (l1 l2 : List Item)
    (h : l1.map (fun it => (it.label, it.uiSelected))
      = l2.map (fun it => (it.label, it.uiSelected))) :
    (l1.filter (·.uiSelected)).map (·.label) = (l2.filter (·.uiSelected)).map (·.label) := by
  induction l1 generalizing l2 with
  | nil =>
    cases l2 with
    | nil => rfl
    | cons y ys => simp at h
  | cons x xs ih =>
    cases l2 with
    | nil => simp at h
    | cons y ys =>
      simp only [List.map_cons, List.cons.injEq, Prod.mk.injEq] at h
      obtain ⟨⟨hl, hs⟩, ht⟩ := h
      cases hy : y.uiSelected <;>
        simp [List.filter_cons, hs, hy, hl, ih ys ht]

theorem natSelectedLabels_congr (u v : SelectorState)
    (h : u.list.map (fun it => (it.label, it.uiSelected))
      = v.list.map (fun it => (it.label, it.uiSelected))) :
    natSelectedLabels u = natSelectedLabels v :=
  selLabels_of_pairs u.list v.list h

/-- C5: with an open document and chunk holding `cams`, the selection-changed
reaction reports no error, writes nothing to the widget (in particular no
checkbox state), sets each camera's host selection flag to true iff its label
occurs among the natively-selected rows' labels, and its outcome is independent
of every row's checkbox state. -/
theorem update_items_sets_host_selection (w : WState) (cams : List Camera)
    (hdoc : w.doc = some (some cams)) :
    (update_items w).2 = none ∧
    (update_items w).1.ui = w.ui ∧
    (update_items w).1.doc = some (some (cams.map
      (fun c => { c with selected := decide (c.label ∈ natSelectedLabels w.ui) }))) ∧
    ∀ v : SelectorState, eqExceptChecked w.ui v →
      (update_items { doc := w.doc, ui := v }).1.doc = (update_items w).1.doc := by
  have h1 : getCameras w.doc = .ok cams := by rw [hdoc]; rfl
  refine ⟨?_, ?_, ?_, ?_⟩
  · simp [update_items, h1]
  · simp [update_items, h1]
  · simp only [update_items, h1]
    simp only [contains_eq_decide_mem]
  · intro v hv
    have hsel : natSelectedLabels v = natSelectedLabels w.ui :=
      (natSelectedLabels_congr w.ui v hv.2).symm
    simp only [update_items, h1, hsel]

theorem update_items_sets_host_selection_witness :
    (update_items
        { doc := some (some [{ label := "A", photoPath := "/p/a.jpg", selected := false },
                             { label := "B", photoPath := "/p/b.jpg", selected := true }]),
          ui := { list := [{ label := "A", checked := false, uiSelected := true },
                           { label := "B", checked := true, uiSelected := false }],
                  items := [("A", 0), ("B", 1)] } }).1.doc
      = some (some [{ label := "A", photoPath := "/p/a.jpg", selected := true },
                    { label := "B", photoPath := "/p/b.jpg", selected := false }]) := by
  have h := update_items_sets_host_selection
    { doc := some (some [{ label := "A", photoPath := "/p/a.jpg", selected := false },
                         { label := "B", photoPath := "/p/b.jpg", selected := true }]),
      ui := { list := [{ label := "A", checked := false, uiSelected := true },
                       { label := "B", checked := true, uiSelected := false }],
              items := [("A", 0), ("B", 1)] } }
    [{ label := "A", photoPath := "/p/a.jpg", selected := false },
     { label := "B", photoPath := "/p/b.jpg", selected := true }] rfl
  exact h.2.2.1.trans (by decide)

/-! ### Clear (`clear_selected`) -/

theorem getD_eq_get (l : List Item) (n : Nat) (d : Item) (h : n < l.length) :
    l.getD n d = l.get ⟨n, h⟩ := by
  rw [List.getD_eq_get?, List.get?_eq_get h]
  rfl

theorem getD_map_lt (f : Item → Item) (l : List Item) (n : Nat) (d d2 : Item)
    (h : n < l.length) :
    (l.map f).getD n d = f (l.getD n d2) := by
  rw [List.getD_eq_get?, List.get?_map, List.get?_eq_get h, getD_eq_get l n d2 h]
  rfl

theorem clearFold_spec (kvs : List (String × Nat)) (ui : SelectorState) :
    (kvs.foldl (fun s kv => setChecked s kv.2 false) ui).items = ui.items ∧
    (kvs.foldl (fun s kv => setChecked s kv.2 false) ui).list.length = ui.list.length ∧
    ∀ j : Nat, itemAt (kvs.foldl (fun s kv => setChecked s kv.2 false) ui) j =
      (if kvs.any (fun kv => kv.2 == j) then { itemAt ui j with checked := false }
       else itemAt ui j) := by
  induction kvs generalizing ui with
  | nil => simp
  | cons kv rest ih =>
    obtain ⟨k, i⟩ := kv
    have hstep : (((k, i) :: rest).foldl (fun s kv => setChecked s kv.2 false) ui)
        = rest.foldl (fun s kv => setChecked s kv.2 false) (setChecked ui i false) := rfl
    obtain ⟨ih1, ih2, ih3⟩ := ih (setChecked ui i false)
    refine ⟨?_, ?_, ?_⟩
    · rw [hstep, ih1, items_setChecked]
    · rw [hstep, ih2, length_setChecked]
    · intro j
      rw [hstep, ih3 j, List.any_cons]
      have hpair : ((k, i).2 == j) = (i == j) := rfl
      by_cases hr : rest.any (fun kv => kv.2 == j) = true
      · rw [if_pos hr, if_pos (show ((k, i).2 == j || rest.any fun kv => kv.2 == j) = true by
          rw [hr]; simp), itemAt_setChecked]
        split <;> rfl
      · have hr2 : rest.any (fun kv => kv.2 == j) = false := Bool.eq_false_iff.mpr hr
        rw [if_neg hr]
        by_cases hj : i = j
        · have hcond : ((k, i).2 == j || rest.any fun kv => kv.2 == j) = true := by
            rw [hpair, hj]
            simp
          rw [if_pos hcond, itemAt_setChecked]
          by_cases hlen : i < ui.list.length
          · rw [if_pos (And.intro hj.symm hlen)]
          · rw [if_neg (fun hand => hlen hand.2),
              itemAt_ge_length ui j (hj ▸ Nat.le_of_not_lt hlen)]
            rfl
        · have hb : (i == j) = false := by
            simpa using hj
          have hcond : ((k, i).2 == j || rest.any fun kv => kv.2 == j) = false := by
            rw [hpair, hb, hr2]
            rfl
          rw [if_neg (by rw [hcond]; simp), itemAt_setChecked,
            if_neg (fun hand => hj hand.1.symm)]

/-- C8: when every row index is covered by the entry dict (the invariant Refresh
establishes whenever camera labels are distinct), Clear sets every row's
checkbox to unchecked — whatever it was before — preserving each row's label
and native selection, and performs no host mutation (the document, hence every
camera's selection flag, is untouched). -/
theorem clear_selected_unchecks (w : WState)
    (hcov : ∀ j, j < w.ui.list.length → ∃ kv ∈ w.ui.items, kv.2 = j) :
    (clear_selected w).doc = w.doc ∧
    (clear_selected w).ui.items = w.ui.items ∧
    (clear_selected w).ui.list = w.ui.list.map (fun it => { it with checked := false }) := by
  obtain ⟨h1, h2, h3⟩ := clearFold_spec w.ui.items w.ui
  refine ⟨rfl, h1, ?_⟩
  apply List.ext_get
  · rw [show (clear_selected w).ui.list.length
        = (w.ui.items.foldl (fun s kv => setChecked s kv.2 false) w.ui).list.length from rfl, h2]
    simp
  · intro n hn1 hn2
    have hn : n < w.ui.list.length := by
      have := hn1
      rw [show (clear_selected w).ui.list.length
          = (w.ui.items.foldl (fun s kv => setChecked s kv.2 false) w.ui).list.length from rfl,
        h2] at this
      exact this
    have hany : w.ui.items.any (fun kv => kv.2 == n) = true := by
      obtain ⟨kv, hmem, hkv⟩ := hcov n hn
      exact List.any_eq_true.mpr ⟨kv, hmem, by simp [hkv]⟩
    have hl : (clear_selected w).ui.list.get ⟨n, hn1⟩
        = itemAt (w.ui.items.foldl (fun s kv => setChecked s kv.2 false) w.ui) n := by
      rw [itemAt, getD_eq_get _ n defaultItem (by rw [h2]; exact hn)]
      rfl
    rw [hl, h3 n, if_pos hany,
      ← getD_eq_get _ n defaultItem hn2,
      getD_map_lt _ _ n defaultItem defaultItem hn]
    rfl

theorem clear_selected_unchecks_witness :
    (clear_selected
        { doc := some (some [{ label := "A", photoPath := "/p/a.jpg", selected := true }]),
          ui := { list := [{ label := "A", checked := true, uiSelected := true },
                           { label := "B", checked := true, uiSelected := false }],
                  items := [("A", 0), ("B", 1)] } }).ui.list
      = [{ label := "A", checked := false, uiSelected := true },
         { label := "B", checked := false, uiSelected := false }] := by
  have h := clear_selected_unchecks
    { doc := some (some [{ label := "A", photoPath := "/p/a.jpg", selected := true }]),
      ui := { list := [{ label := "A", checked := true, uiSelected := true },
                       { label := "B", checked := true, uiSelected := false }],
              items := [("A", 0), ("B", 1)] } }
    (by decide)
  exact h.2.2.trans (by decide)

/-! ### Pull from host selection (`check_selected`) -/

theorem checkSelectedLoop_spec (cams : List Camera) (ui : SelectorState)
    (hcov : ∀ c ∈ cams, c.selected = true →
      ∃ idx, dictGet ui.items c.label = some idx ∧ idx < ui.list.length) :
    (checkSelectedLoop cams ui).2 = none ∧
    (checkSelectedLoop cams ui).1.items = ui.items ∧
    (checkSelectedLoop cams ui).1.list.length = ui.list.length ∧
    ∀ j : Nat, itemAt (checkSelectedLoop cams ui).1 j =
      (if cams.any (fun c => c.selected && (dictGet ui.items c.label == some j))
       then { itemAt ui j with checked := true }
       else itemAt ui j) := by
  induction cams generalizing ui with
  | nil => simp [checkSelectedLoop]
  | cons camera rest ih =>
    cases hsel : camera.selected with
    | false =>
      have hstep : checkSelectedLoop (camera :: rest) ui = checkSelectedLoop rest ui := by
        simp [checkSelectedLoop, hsel]
      obtain ⟨ih1, ih2, ih3, ih4⟩ := ih ui (fun c hc hs => hcov c (List.mem_cons_of_mem _ hc) hs)
      refine ⟨by rw [hstep]; exact ih1, by rw [hstep]; exact ih2,
        by rw [hstep]; exact ih3, ?_⟩
      intro j
      rw [hstep, ih4 j, List.any_cons, hsel]
      simp only [Bool.false_and, Bool.false_or]
    | true =>
      obtain ⟨idx, hidx, hlt⟩ := hcov camera (List.mem_cons_self _ _) hsel
      have hstep : checkSelectedLoop (camera :: rest) ui
          = checkSelectedLoop rest (setChecked ui idx true) := by
        simp [checkSelectedLoop, hsel, hidx]
      have hcov1 : ∀ c ∈ rest, c.selected = true →
          ∃ i2, dictGet (setChecked ui idx true).items c.label = some i2 ∧
            i2 < (setChecked ui idx true).list.length := by
        intro c hc hs
        obtain ⟨i2, ha, hb⟩ := hcov c (List.mem_cons_of_mem _ hc) hs
        refine ⟨i2, ?_, ?_⟩
        · rw [items_setChecked]; exact ha
        · rw [length_setChecked]; exact hb
      obtain ⟨ih1, ih2, ih3, ih4⟩ := ih (setChecked ui idx true) hcov1
      refine ⟨by rw [hstep]; exact ih1,
        by rw [hstep, ih2, items_setChecked],
        by rw [hstep, ih3, length_setChecked], ?_⟩
      intro j
      rw [hstep, ih4 j]
      simp only [items_setChecked]
      rw [List.any_cons, hsel]
      simp only [Bool.true_and, hidx]
      have hsome : ((some idx : Option Nat) == some j) = (idx == j) := rfl
      rw [hsome]
      by_cases hr : rest.any (fun c => c.selected && (dictGet ui.items c.label == some j)) = true
      · rw [if_pos hr, if_pos (by rw [hr]; simp), itemAt_setChecked]
        split <;> rfl
      · have hr2 : rest.any (fun c => c.selected && (dictGet ui.items c.label == some j)) = false :=
          Bool.eq_false_iff.mpr hr
        rw [if_neg hr]
        by_cases hj : idx = j
        · rw [if_pos (by rw [hj]; simp), itemAt_setChecked,
            if_pos (And.intro hj.symm hlt)]
        · have hbj : (idx == j) = false := by
            simpa using hj
          rw [if_neg (by rw [hbj, hr2]; simp), itemAt_setChecked,
            if_neg (fun hand => hj hand.1.symm)]

/-- C6: with an open document and chunk holding `cams` and an entry dict
covering all chunk cameras, Pull reports no error, leaves the host state (and
hence every camera's selection flag) untouched, and checks exactly the rows of
host-selected cameras — every other row, including already-checked ones, keeps
its previous check state, and every row keeps its label and native selection. -/
theorem check_selected_pulls (w : WState) (cams : List Camera)
    (hdoc : w.doc = some (some cams))
    (hcov : ∀ c ∈ cams, ∃ idx, dictGet w.ui.items c.label = some idx ∧ idx < w.ui.list.length) :
    (check_selected w).2 = none ∧
    (check_selected w).1.doc = w.doc ∧
    (check_selected w).1.ui.items = w.ui.items ∧
    (check_selected w).1.ui.list.length = w.ui.list.length ∧
    ∀ j : Nat, itemAt (check_selected w).1.ui j =
      (if cams.any (fun c => c.selected && (dictGet w.ui.items c.label == some j))
       then { itemAt w.ui j with checked := true }
       else itemAt w.ui j) := by
  have h1 : getCameras w.doc = .ok cams := by rw [hdoc]; rfl
  obtain ⟨l1, l2, l3, l4⟩ := checkSelectedLoop_spec cams w.ui (fun c hc _ => hcov c hc)
  have hck : check_selected w
      = ({ w with ui := (checkSelectedLoop cams w.ui).1 }, (checkSelectedLoop cams w.ui).2) := by
    simp [check_selected, h1]
  rw [hck]
  exact ⟨l1, rfl, l2, l3, l4⟩

theorem check_selected_pulls_witness :
    (check_selected
        { doc := some (some [{ label := "A", photoPath := "/p/a.jpg", selected := true },
                             { label := "B", photoPath := "/p/b.jpg", selected := false }]),
          ui := { list := [{ label := "A", checked := false, uiSelected := false },
                           { label := "B", checked := false, uiSelected := true }],
                  items := [("A", 0), ("B", 1)] } }).2 = none ∧
    itemAt (check_selected
        { doc := some (some [{ label := "A", photoPath := "/p/a.jpg", selected := true },
                             { label := "B", photoPath := "/p/b.jpg", selected := false }]),
          ui := { list := [{ label := "A", checked := false, uiSelected := false },
                           { label := "B", checked := false, uiSelected := true }],
                  items := [("A", 0), ("B", 1)] } }).1.ui 0
      = { label := "A", checked := true, uiSelected := false } ∧
    itemAt (check_selected
        { doc := some (some [{ label := "A", photoPath := "/p/a.jpg", selected := true },
                             { label := "B", photoPath := "/p/b.jpg", selected := false }]),
          ui := { list := [{ label := "A", checked := false, uiSelected := false },
                           { label := "B", checked := false, uiSelected := true }],
                  items := [("A", 0), ("B", 1)] } }).1.ui 1
      = { label := "B", checked := false, uiSelected := true } := by
  have h := check_selected_pulls
    { doc := some (some [{ label := "A", photoPath := "/p/a.jpg", selected := true },
                         { label := "B", photoPath := "/p/b.jpg", selected := false }]),
      ui := { list := [{ label := "A", checked := false, uiSelected := false },
                       { label := "B", checked := false, uiSelected := true }],
              items := [("A", 0), ("B", 1)] } }
    [{ label := "A", photoPath := "/p/a.jpg", selected := true },
     { label := "B", photoPath := "/p/b.jpg", selected := false }]
    rfl
    (by
      intro c hc
      simp only [List.mem_cons, List.mem_singleton] at hc
      rcases hc with rfl | rfl | h2
      · exact ⟨0, rfl, by decide⟩
      · exact ⟨1, rfl, by decide⟩
      · cases h2)
  exact ⟨h.1, (h.2.2.2.2 0).trans (by decide), (h.2.2.2.2 1).trans (by decide)⟩

/-! ### Push to host selection (`select_checked`) -/

theorem selectCheckedLoop_spec (cams : List Camera) (ui : SelectorState)
    (hcov : ∀ c ∈ cams, ∃ idx, dictGet ui.items c.label = some idx ∧ idx < ui.list.length) :
    (selectCheckedLoop cams ui).2 = none ∧
    (selectCheckedLoop cams ui).1.1
      = cams.map (fun c => { c with selected := entryChecked ui c.label }) ∧
    (selectCheckedLoop cams ui).1.2.items = ui.items ∧
    (selectCheckedLoop cams ui).1.2.list.length = ui.list.length ∧
    ∀ j : Nat, itemAt (selectCheckedLoop cams ui).1.2 j =
      (if cams.any (fun c => dictGet ui.items c.label == some j)
       then { itemAt ui j with uiSelected := (itemAt ui j).checked }
       else itemAt ui j) := by
  induction cams generalizing ui with
  | nil => simp [selectCheckedLoop]
  | cons camera rest ih =>
    obtain ⟨idx, hidx, hlt⟩ := hcov camera (List.mem_cons_self _ _)
    have hb : entryChecked ui camera.label = (itemAt ui idx).checked := by
      unfold entryChecked
      rw [hidx]
    have hstep : selectCheckedLoop (camera :: rest) ui
        = (({ camera with selected := (itemAt ui idx).checked }
              :: (selectCheckedLoop rest (setUiSelected ui idx (itemAt ui idx).checked)).1.1,
            (selectCheckedLoop rest (setUiSelected ui idx (itemAt ui idx).checked)).1.2),
           (selectCheckedLoop rest (setUiSelected ui idx (itemAt ui idx).checked)).2) := by
      simp [selectCheckedLoop, hidx]
    have hcov1 : ∀ c ∈ rest,
        ∃ i2, dictGet (setUiSelected ui idx (itemAt ui idx).checked).items c.label = some i2 ∧
          i2 < (setUiSelected ui idx (itemAt ui idx).checked).list.length := by
      intro c hc
      obtain ⟨i2, ha, hb2⟩ := hcov c (List.mem_cons_of_mem _ hc)
      refine ⟨i2, ?_, ?_⟩
      · rw [items_setUiSelected]; exact ha
      · rw [length_setUiSelected]; exact hb2
    obtain ⟨ih1, ih2, ih3, ih4, ih5⟩ :=
      ih (setUiSelected ui idx (itemAt ui idx).checked) hcov1
    refine ⟨by rw [hstep]; exact ih1, ?_, ?_, ?_, ?_⟩
    · rw [hstep]
      show _ :: _ = _
      rw [List.map_cons, ih2]
      simp only [entryChecked_setUiSelected]
      rw [hb]
    · rw [hstep]
      show (selectCheckedLoop rest (setUiSelected ui idx (itemAt ui idx).checked)).1.2.items = _
      rw [ih3, items_setUiSelected]
    · rw [hstep]
      show (selectCheckedLoop rest (setUiSelected ui idx (itemAt ui idx).checked)).1.2.list.length = _
      rw [ih4, length_setUiSelected]
    · intro j
      rw [hstep]
      show itemAt (selectCheckedLoop rest (setUiSelected ui idx (itemAt ui idx).checked)).1.2 j = _
      rw [ih5 j]
      simp only [items_setUiSelected]
      rw [List.any_cons, hidx]
      have hsome : ((some idx : Option Nat) == some j) = (idx == j) := rfl
      rw [hsome]
      by_cases hr : rest.any (fun c => dictGet ui.items c.label == some j) = true
      · rw [if_pos hr, if_pos (by rw [hr]; simp), itemAt_setUiSelected]
        split <;> rfl
      · have hr2 : rest.any (fun c => dictGet ui.items c.label == some j) = false :=
          Bool.eq_false_iff.mpr hr
        rw [if_neg hr]
        by_cases hj : idx = j
        · rw [if_pos (by rw [hj]; simp), itemAt_setUiSelected,
            if_pos (And.intro hj.symm hlt), hj]
        · have hbj : (idx == j) = false := by
            simpa using hj
          rw [if_neg (by rw [hbj, hr2]; simp), itemAt_setUiSelected,
            if_neg (fun hand => hj hand.1.symm)]

/-- C4: with an open document and chunk holding `cams` and an entry dict
covering all chunk cameras, Push reports no error and, for every camera, sets
its host selection flag to its row's check state (true when checked, false when
unchecked) while setting the same row's native selection to that same boolean;
rows not referenced by any camera keep their state, and no row's label or check
state changes. -/
theorem select_checked_pushes (w : WState) (cams : List Camera)
    (hdoc : w.doc = some (some cams))
    (hcov : ∀ c ∈ cams, ∃ idx, dictGet w.ui.items c.label = some idx ∧ idx < w.ui.list.length) :
    (select_checked w).2 = none ∧
    (select_checked w).1.doc
      = some (some (cams.map (fun c => { c with selected := entryChecked w.ui c.label }))) ∧
    (select_checked w).1.ui.items = w.ui.items ∧
    (select_checked w).1.ui.list.length = w.ui.list.length ∧
    ∀ j : Nat, itemAt (select_checked w).1.ui j =
      (if cams.any (fun c => dictGet w.ui.items c.label == some j)
       then { itemAt w.ui j with uiSelected := (itemAt w.ui j).checked }
       else itemAt w.ui j) := by
  have h1 : getCameras w.doc = .ok cams := by rw [hdoc]; rfl
  obtain ⟨l1, l2, l3, l4, l5⟩ := selectCheckedLoop_spec cams w.ui hcov
  have hck : select_checked w
      = ({ doc := some (some (selectCheckedLoop cams w.ui).1.1),
           ui := (selectCheckedLoop cams w.ui).1.2 }, (selectCheckedLoop cams w.ui).2) := by
    simp [select_checked, h1]
  rw [hck]
  exact ⟨l1, congrArg (fun x => some (some x)) l2, l3, l4, l5⟩

theorem select_checked_pushes_witness :
    (select_checked
        { doc := some (some [{ label := "A", photoPath := "/p/a.jpg", selected := false },
                             { label := "B", photoPath := "/p/b.jpg", selected := true }]),
          ui := { list := [{ label := "A", checked := true, uiSelected := false },
                           { label := "B", checked := false, uiSelected := true }],
                  items := [("A", 0), ("B", 1)] } }).2 = none ∧
    (select_checked
        { doc := some (some [{ label := "A", photoPath := "/p/a.jpg", selected := false },
                             { label := "B", photoPath := "/p/b.jpg", selected := true }]),
          ui := { list := [{ label := "A", checked := true, uiSelected := false },
                           { label := "B", checked := false, uiSelected := true }],
                  items := [("A", 0), ("B", 1)] } }).1.doc
      = some (some [{ label := "A", photoPath := "/p/a.jpg", selected := true },
                    { label := "B", photoPath := "/p/b.jpg", selected := false }]) ∧
    itemAt (select_checked
        { doc := some (some [{ label := "A", photoPath := "/p/a.jpg", selected := false },
                             { label := "B", photoPath := "/p/b.jpg", selected := true }]),
          ui := { list := [{ label := "A", checked := true, uiSelected := false },
                           { label := "B", checked := false, uiSelected := true }],
                  items := [("A", 0), ("B", 1)] } }).1.ui 0
      = { label := "A", checked := true, uiSelected := true } ∧
    itemAt (select_checked
        { doc := some (some [{ label := "A", photoPath := "/p/a.jpg", selected := false },
                             { label := "B", photoPath := "/p/b.jpg", selected := true }]),
          ui := { list := [{ label := "A", checked := true, uiSelected := false },
                           { label := "B", checked := false, uiSelected := true }],
                  items := [("A", 0), ("B", 1)] } }).1.ui 1
      = { label := "B", checked := false, uiSelected := false } := by
  have h := select_checked_pushes
    { doc := some (some [{ label := "A", photoPath := "/p/a.jpg", selected := false },
                         { label := "B", photoPath := "/p/b.jpg", selected := true }]),
      ui := { list := [{ label := "A", checked := true, uiSelected := false },
                       { label := "B", checked := false, uiSelected := true }],
              items := [("A", 0), ("B", 1)] } }
    [{ label := "A", photoPath := "/p/a.jpg", selected := false },
     { label := "B", photoPath := "/p/b.jpg", selected := true }]
    rfl
    (by
      intro c hc
      simp only [List.mem_cons, List.mem_singleton] at hc
      rcases hc with rfl | rfl | h2
      · exact ⟨0, rfl, by decide⟩
      · exact ⟨1, rfl, by decide⟩
      · cases h2)
  exact ⟨h.1, h.2.1.trans (by decide),
    (h.2.2.2.2 0).trans (by decide), (h.2.2.2.2 1).trans (by decide)⟩

/-! ### Stale entry dict: `KeyError` in Pull and Push -/

theorem checkSelectedLoop_append_fail (pre : List Camera) (c : Camera) (post : List Camera) :
    ∀ ui : SelectorState,
      (∀ p ∈ pre, p.selected = true → (dictGet ui.items p.label).isSome = true) →
      c.selected = true →
      dictGet ui.items c.label = none →
      checkSelectedLoop (pre ++ c :: post) ui
        = ((checkSelectedLoop pre ui).1, some (Err.keyError c.label)) := by
  induction pre with
  | nil =>
    intro ui hpre hc hmiss
    simp [checkSelectedLoop, hc, hmiss]
  | cons p pre2 ih =>
    intro ui hpre hc hmiss
    cases hsel : p.selected with
    | false =>
      have h1 : checkSelectedLoop ((p :: pre2) ++ c :: post) ui
          = checkSelectedLoop (pre2 ++ c :: post) ui := by
        simp [checkSelectedLoop, hsel]
      have h2 : checkSelectedLoop (p :: pre2) ui = checkSelectedLoop pre2 ui := by
        simp [checkSelectedLoop, hsel]
      rw [h1, h2]
      exact ih ui (fun q hq hs => hpre q (List.mem_cons_of_mem _ hq) hs) hc hmiss
    | true =>
      obtain ⟨idx, hidx⟩ :=
        Option.isSome_iff_exists.mp (hpre p (List.mem_cons_self _ _) hsel)
      have h1 : checkSelectedLoop ((p :: pre2) ++ c :: post) ui
          = checkSelectedLoop (pre2 ++ c :: post) (setChecked ui idx true) := by
        simp [checkSelectedLoop, hsel, hidx]
      have h2 : checkSelectedLoop (p :: pre2) ui
          = checkSelectedLoop pre2 (setChecked ui idx true) := by
        simp [checkSelectedLoop, hsel, hidx]
      rw [h1, h2]
      exact ih (setChecked ui idx true)
        (fun q hq hs => by
          rw [items_setChecked]
          exact hpre q (List.mem_cons_of_mem _ hq) hs)
        hc
        (by rw [items_setChecked]; exact hmiss)

theorem selectCheckedLoop_append_fail (pre : List Camera) (c : Camera) (post : List Camera) :
    ∀ ui : SelectorState,
      (∀ p ∈ pre, (dictGet ui.items p.label).isSome = true) →
      dictGet ui.items c.label = none →
      selectCheckedLoop (pre ++ c :: post) ui
        = (((selectCheckedLoop pre ui).1.1 ++ c :: post, (selectCheckedLoop pre ui).1.2),
           some (Err.keyError c.label)) := by
  induction pre with
  | nil =>
    intro ui hpre hmiss
    simp [selectCheckedLoop, hmiss]
  | cons p pre2 ih =>
    intro ui hpre hmiss
    obtain ⟨idx, hidx⟩ :=
      Option.isSome_iff_exists.mp (hpre p (List.mem_cons_self _ _))
    have h1 : selectCheckedLoop ((p :: pre2) ++ c :: post) ui
        = (({ p with selected := (itemAt ui idx).checked }
              :: (selectCheckedLoop (pre2 ++ c :: post)
                    (setUiSelected ui idx (itemAt ui idx).checked)).1.1,
            (selectCheckedLoop (pre2 ++ c :: post)
              (setUiSelected ui idx (itemAt ui idx).checked)).1.2),
           (selectCheckedLoop (pre2 ++ c :: post)
             (setUiSelected ui idx (itemAt ui idx).checked)).2) := by
      simp [selectCheckedLoop, hidx]
    have h2 : selectCheckedLoop (p :: pre2) ui
        = (({ p with selected := (itemAt ui idx).checked }
              :: (selectCheckedLoop pre2 (setUiSelected ui idx (itemAt ui idx).checked)).1.1,
            (selectCheckedLoop pre2 (setUiSelected ui idx (itemAt ui idx).checked)).1.2),
           (selectCheckedLoop pre2 (setUiSelected ui idx (itemAt ui idx).checked)).2) := by
      simp [selectCheckedLoop, hidx]
    have hrec := ih (setUiSelected ui idx (itemAt ui idx).checked)
      (fun q hq => by
        rw [items_setUiSelected]
        exact hpre q (List.mem_cons_of_mem _ hq))
      (by rw [items_setUiSelected]; exact hmiss)
    rw [h1, hrec, h2]
    rfl

/-- C10: a chunk camera whose label is absent from the entry dict — e.g. one
added to the chunk after the last Refresh — makes Pull (when that camera is
host-selected) and Push fail with a `KeyError` naming that label instead of
silently skipping it: the loop stops at the first such camera, and the state
returned is the one produced by processing the cameras before it, so cameras
and rows iterated before the failure are already mutated. -/
theorem stale_entry_dict_key_error (w : WState) (pre : List Camera) (c : Camera)
    (post : List Camera)
    (hdoc : w.doc = some (some (pre ++ c :: post)))
    (hmiss : dictGet w.ui.items c.label = none) :
    (c.selected = true →
      (∀ p ∈ pre, p.selected = true → (dictGet w.ui.items p.label).isSome = true) →
      check_selected w
        = ({ w with ui := (checkSelectedLoop pre w.ui).1 }, some (Err.keyError c.label))) ∧
    ((∀ p ∈ pre, (dictGet w.ui.items p.label).isSome = true) →
      select_checked w
        = ({ doc := some (some ((selectCheckedLoop pre w.ui).1.1 ++ c :: post)),
             ui := (selectCheckedLoop pre w.ui).1.2 }, some (Err.keyError c.label))) := by
  have h1 : getCameras w.doc = .ok (pre ++ c :: post) := by rw [hdoc]; rfl
  constructor
  · intro hc hpre
    have hl := checkSelectedLoop_append_fail pre c post w.ui hpre hc hmiss
    simp [check_selected, h1, hl]
  · intro hpre
    have hl := selectCheckedLoop_append_fail pre c post w.ui hpre hmiss
    simp [select_checked, h1, hl]

theorem stale_entry_dict_key_error_witness :
    check_selected
        { doc := some (some [{ label := "P", photoPath := "/p/p.jpg", selected := true },
                             { label := "X", photoPath := "/p/x.jpg", selected := true }]),
          ui := { list := [{ label := "P", checked := false, uiSelected := false }],
                  items := [("P", 0)] } }
      = ({ doc := some (some [{ label := "P", photoPath := "/p/p.jpg", selected := true },
                              { label := "X", photoPath := "/p/x.jpg", selected := true }]),
           ui := { list := [{ label := "P", checked := true, uiSelected := false }],
                   items := [("P", 0)] } }, some (Err.keyError "X")) ∧
    select_checked
        { doc := some (some [{ label := "P", photoPath := "/p/p.jpg", selected := true },
                             { label := "X", photoPath := "/p/x.jpg", selected := true }]),
          ui := { list := [{ label := "P", checked := false, uiSelected := false }],
                  items := [("P", 0)] } }
      = ({ doc := some (some [{ label := "P", photoPath := "/p/p.jpg", selected := false },
                              { label := "X", photoPath := "/p/x.jpg", selected := true }]),
           ui := { list := [{ label := "P", checked := false, uiSelected := false }],
                   items := [("P", 0)] } }, some (Err.keyError "X")) := by
  have h := stale_entry_dict_key_error
    { doc := some (some [{ label := "P", photoPath := "/p/p.jpg", selected := true },
                         { label := "X", photoPath := "/p/x.jpg", selected := true }]),
      ui := { list := [{ label := "P", checked := false, uiSelected := false }],
              items := [("P", 0)] } }
    [{ label := "P", photoPath := "/p/p.jpg", selected := true }]
    { label := "X", photoPath := "/p/x.jpg", selected := true }
    []
    rfl
    rfl
  exact ⟨(h.1 rfl (by decide)).trans (by decide),
    (h.2 (by decide)).trans (by decide)⟩
